import Mathlib

/-!
Verification of the amazon-rekognition-app backend (PPE detection pipeline).

The development shallowly embeds the JavaScript source of the repository:
byte buffers become lists of naturals, the external collaborators (the sharp
image codec, the ffmpeg transcoder, the Rekognition detector, bcrypt, jwt and
the MySQL store) become function parameters, thrown exceptions become
`Except`, and the unbounded `while` loop of `resizeAndCompressImage` is
modelled with explicit fuel, `none` meaning the loop has not exited within
that many iterations.
-/

namespace RekognitionApp

/-- A JavaScript byte buffer; only its contents and length matter here. -/
abbrev Buffer := List Nat

/-- JS `resizedImageBuffer.length / 1024 / 1024` — the size in MB, computed
with real (here rational) division as in JavaScript. -/
def fileSizeMB (buf : Buffer) : ℚ := (buf.length : ℚ) / 1024 / 1024

/-- The `while (fileSize > 5)` loop of `resizeAndCompressImage`
(src/backend/server.js lines 218-226): while the current buffer exceeds
5 MB, re-encode it with the second-pass encoder (sharp at width 640,
quality 50, abstract here).  Fuel bounds the number of loop iterations we
observe; `some (buf, k)` means the loop exited with buffer `buf` after `k`
second-pass re-encodings, `none` that it was still running after the fuel
ran out. -/
def compressLoop (encodeSecond : Buffer → Buffer) : Nat → Buffer → Option (Buffer × Nat)
  | 0, buf => if 5 < fileSizeMB buf then none else some (buf, 0)
  | fuel + 1, buf =>
    if 5 < fileSizeMB buf then
      (compressLoop encodeSecond fuel (encodeSecond buf)).map (fun p => (p.1, p.2 + 1))
    else
      some (buf, 0)

/-- The function `resizeAndCompressImage` of src/backend/server.js lines
209-234: a first encoding pass (sharp resize to width 1280 at JPEG quality
80, abstracted as `encodeFirst`), then the 5 MB re-encoding loop with the
second-pass encoder (width 640, quality 50, abstracted as `encodeSecond`). -/
def resizeAndCompressImage (encodeFirst : Buffer → Buffer)
    (encodeSecond : Buffer → Buffer) (fuel : Nat) (image : Buffer) :
    Option (Buffer × Nat) :=
  compressLoop encodeSecond fuel (encodeFirst image)

/-- An image codec that never gets under the ceiling: every re-encode yields
a buffer one byte over 5 MB.  Nothing in the repository constrains the
external codec more than its type, so this is a legal behaviour of the
collaborator the loop calls. -/
def stuckEncoder : Buffer → Buffer := fun _ => List.replicate (5 * 1024 * 1024 + 1) 0

/-- The loop body of `analyzePPEInFrames` (src/backend/server.js lines
190-203): for each file, `resizeAndCompressImage` runs outside any
try/catch (its failure aborts the whole request), then the detector call is
wrapped in try/catch — a failure is logged and the frame skipped, a success
pushes `{ file, ppeResult }`.  `resize` and `analyze` abstract the sharp
pipeline and the Rekognition call. -/
def analyzeLoop (resize : String → Except String Buffer)
    (analyze : Buffer → Except String ρ) :
    List String → Except String (List (String × ρ))
  | [] => Except.ok []
  | f :: fs =>
    match resize f with
    | Except.error e => Except.error e
    | Except.ok buf =>
      match analyze buf with
      | Except.ok r => (analyzeLoop resize analyze fs).map (fun rest => (f, r) :: rest)
      | Except.error _ => analyzeLoop resize analyze fs

/-- The function `analyzePPEInFrames` (src/backend/server.js lines
186-206): list the folder, keep the files ending in `.png` (the JS
`file.endsWith('.png')`, stated on the character sequences of the strings),
then run the per-frame loop. -/
def analyzePPEInFrames (resize : String → Except String Buffer)
    (analyze : Buffer → Except String ρ) (folder : List String) :
    Except String (List (String × ρ)) :=
  analyzeLoop resize analyze
    (folder.filter (fun f => List.isSuffixOf (String.data ".png") f.data))

/-- Zero padding of ffmpeg's `%03d` frame numbering. -/
def pad3 (i : Nat) : String :=
  if i < 10 then "00" ++ toString i
  else if i < 100 then "0" ++ toString i
  else toString i

/-- The frame file name pattern `frame-%03d.png` of `extractFrames`
(src/backend/server.js line 179). -/
def frameName (i : Nat) : String := "frame-" ++ pad3 i ++ ".png"

/-- Modelled from the spec: the video-to-frames transcoder (the external
ffmpeg binary driven by `extractFrames`, src/backend/server.js lines
166-183, not itself source of this repository) samples one frame per second
and writes them as `frame-001.png`, `frame-002.png`, ...  At one frame per
second a video of duration `d` seconds yields `k ≤ ⌈d⌉` frames, listed here
in the order they are numbered. -/
def extractFrames (k : Nat) : List String :=
  (List.range k).map (fun i => frameName (i + 1))

/-- Outcome of the `POST /upload` handler of src/backend/server.js: the JSON
response plus the list of pipeline stages that actually ran (file write,
frame extraction, frame analysis).  The `Logs` table updates are external
side effects of the database collaborator and are not part of the pipeline. -/
structure UploadOutcome (ρ : Type) where
  status : Nat
  success : Bool
  error : Option String
  ppeData : Option ρ
  stages : List String

/-- The `POST /upload` handler of src/backend/server.js lines 91-160:
verify the bearer token (reject with 401 on failure), reject with 400 when
`req.file` is absent, otherwise write the video to the temp folder, extract
frames and analyze them, answering 200 with the aggregate or 500 with the
first error.  `extractF` and `analyzeF` abstract the ffmpeg call and the
per-frame detector loop. -/
def uploadHandler (tokenValid : Bool) (file : Option Buffer)
    (extractF : Buffer → Except String (List String))
    (analyzeF : List String → Except String ρ) : UploadOutcome ρ :=
  if tokenValid = false then
    ⟨401, false, some "Invalid token", none, []⟩
  else
    match file with
    | none => ⟨400, false, some "No file uploaded", none, []⟩
    | some buf =>
      match extractF buf with
      | Except.error e => ⟨500, false, some e, none, ["writeFile", "extractFrames"]⟩
      | Except.ok frames =>
        match analyzeF frames with
        | Except.error e =>
          ⟨500, false, some e, none, ["writeFile", "extractFrames", "analyzeFrames"]⟩
        | Except.ok ppe =>
          ⟨200, true, none, some ppe, ["writeFile", "extractFrames", "analyzeFrames"]⟩

/-- Outcome of the `POST /upload` handler of src/backend/index.js: either a
JSON response or an uncaught thrown exception (no response at all). -/
inductive IndexOutcome (ρ : Type)
  | response (status : Nat) (success : Bool) (ppeData : Option ρ) (error : Option String)
  | thrown (message : String)

/-- Whether an outcome is a `{success:false}` JSON error response. -/
def IndexOutcome.isFailureResponse : IndexOutcome ρ → Bool
  | IndexOutcome.response _ success _ error => !success && error.isSome
  | IndexOutcome.thrown _ => false

/-- The `POST /upload` handler of src/backend/index.js lines 82-119: it
reads `req.file.filename` before any guard or try/catch (line 83), so a
request with no file attached throws a TypeError out of the handler instead
of producing a response; with a file it checks existence (400), takes one
screenshot frame (500 on error) and analyzes it (200 or 500). -/
def uploadHandlerIndex (file : Option String) (fileExists : String → Bool)
    (screenshot : String → Except String String)
    (analyze : String → Except String ρ) : IndexOutcome ρ :=
  match file with
  | none => IndexOutcome.thrown "TypeError: cannot read filename of undefined"
  | some name =>
    if fileExists name = false then
      IndexOutcome.response 400 false none (some "Uploaded video not found")
    else
      match screenshot name with
      | Except.error _ => IndexOutcome.response 500 false none (some "Error processing video")
      | Except.ok frame =>
        match analyze frame with
        | Except.error _ => IndexOutcome.response 500 false none (some "Error detecting PPE")
        | Except.ok ppe => IndexOutcome.response 200 true (some ppe) none

/-- A user row of the `Users` table (src/backend/db schema: username,
email, salted password hash, id). -/
structure User where
  user_id : Nat
  username : String
  email : String
  password_hash : String

/-- Outcome of the login handler: the JSON response fields plus whether a
`Logs` row was inserted (the only server-side session artifact the handler
creates besides the signed token). -/
structure LoginResult where
  status : Nat
  success : Bool
  token : Option String
  error : Option String
  logInserted : Bool

/-- The `login` handler of src/backend/server.js lines 60-81 (identically
src/backend/auth.js lines 18-32, which only skips the `Logs` insert): query
`Users` by username — a database error or empty result answers 400 Invalid
credentials; then compare the password against the stored hash with bcrypt —
a mismatch answers 400 Invalid credentials; on a match, sign a JWT carrying
the user id, insert a login `Logs` row and answer `{success:true, token}`. -/
def login (dbQuery : String → Except String (List User))
    (bcryptCompare : String → String → Bool) (jwtSign : Nat → String)
    (username password : String) : LoginResult :=
  match dbQuery username with
  | Except.error _ => ⟨400, false, none, some "Invalid credentials", false⟩
  | Except.ok rows =>
    match rows.head? with
    | none => ⟨400, false, none, some "Invalid credentials", false⟩
    | some user =>
      if bcryptCompare password user.password_hash then
        ⟨200, true, some (jwtSign user.user_id), none, true⟩
      else
        ⟨400, false, none, some "Invalid credentials", false⟩

/-- One equipment detection of the Rekognition response (`EType` embeds the
JS field `Type`, a reserved word here). -/
structure EquipmentDetection where
  EType : String
  Confidence : ℚ

/-- One body part of a detected person.  `Confidence` is optional, as a JS
field read can yield `undefined`. -/
structure BodyPart where
  Name : String
  Confidence : Option ℚ
  EquipmentDetections : List EquipmentDetection

/-- One person of the Rekognition `detectProtectiveEquipment` response. -/
structure Person where
  Confidence : Option ℚ
  BodyParts : List BodyPart

/-- JS `person.BodyParts.some(bp => bp.Name === name)` — the presence flags
`faceDetected`, `headDetected`, `bodyDetected`, `handsDetected` of
src/backend/server.js lines 255-270 are instances. -/
def bodyPartDetected (p : Person) (name : String) : Bool :=
  p.BodyParts.any (fun bp => bp.Name == name)

/-- JS `person.BodyParts.filter(bp => bp.Name === name).some(bp =>
bp.EquipmentDetections.some(ed => ed.Type === ctype))` — the cover flags
`faceMaskDetected`, `headCoverDetected`, `protectiveVestDetected`,
`glovesDetected` of src/backend/server.js lines 256-273 are instances. -/
def equipmentCoverDetected (p : Person) (name ctype : String) : Bool :=
  (p.BodyParts.filter (fun bp => bp.Name == name)).any
    (fun bp => bp.EquipmentDetections.any (fun ed => ed.EType == ctype))

/-- JS `Number.prototype.toFixed(2)` on a non-special number: round to two
decimal places (half away from zero) and print with exactly two fraction
digits. -/
def toFixed2 (q : ℚ) : String :=
  (if q < 0 then "-" else "") ++
    toString (⌊|q| * 100 + 1 / 2⌋ / 100) ++ "." ++
    (if ⌊|q| * 100 + 1 / 2⌋ % 100 < 10 then "0" else "") ++
    toString (⌊|q| * 100 + 1 / 2⌋ % 100)

/-- JS `(person.Confidence || 0)`: an absent (or zero) confidence becomes 0. -/
def confOrZero (c : Option ℚ) : ℚ :=
  match c with
  | none => 0
  | some v => v

/-- JS boolean rendered as the strings used in the records. -/
def boolStr (b : Bool) : String := if b then "true" else "false"

/-- JS `c ? c.toFixed(2) + '%' : 'N/A'` on an optional confidence: both
`undefined` and the number 0 are falsy, so both render as `'N/A'`. -/
def renderConfidence (c : Option ℚ) : String :=
  match c with
  | none => "N/A"
  | some v => if v = 0 then "N/A" else toFixed2 v ++ "%"

/-- JS `person.BodyParts.filter(bp => bp.Name === name).map(bp =>
bp.Confidence)[0]` — the first matching body part's own confidence,
`undefined` when there is no such part. -/
def firstPartConfidence (p : Person) (name : String) : Option ℚ :=
  (p.BodyParts.filter (fun bp => bp.Name == name)).head?.bind
    (fun bp => bp.Confidence)

/-- JS `person.BodyParts.filter(bp => bp.Name === name).map(bp =>
bp.EquipmentDetections[0]?.Confidence)[0]` — the first equipment detection
of the first matching body part, `undefined` when either is missing. -/
def firstEquipConfidence (p : Person) (name : String) : Option ℚ :=
  (p.BodyParts.filter (fun bp => bp.Name == name)).head?.bind
    (fun bp => bp.EquipmentDetections.head?.map (fun ed => ed.Confidence))

/-- The per-person record built by `analyzePPEInImage` of
src/backend/server.js lines 275-285: person id, overall person confidence,
and seven boolean flags.  No per-category confidence values and no body
presence flag appear in this variant. -/
def serverPersonRecord (index : Nat) (p : Person) : List (String × String) :=
  [("Person ID", toString index),
   ("Person detected", toFixed2 (confOrZero p.Confidence) ++ "%"),
   ("Face detected", boolStr (bodyPartDetected p "FACE")),
   ("Face mask detected", boolStr (equipmentCoverDetected p "FACE" "FACE_COVER")),
   ("Head detected", boolStr (bodyPartDetected p "HEAD")),
   ("Helmet detected", boolStr (equipmentCoverDetected p "HEAD" "HEAD_COVER")),
   ("Protective vest detected", boolStr (equipmentCoverDetected p "BODY" "BODY_COVER")),
   ("Hands detected", boolStr (bodyPartDetected p "HAND")),
   ("Gloves detected", boolStr (equipmentCoverDetected p "HAND" "HAND_COVER"))]

/-- The per-person record built by `analyzePPEInImage` of
src/unnamed/part_000 lines 198-214 (identically src/unnamed/part_001 lines
98-114): flags plus confidence entries for face mask, head, helmet and
protective vest, and left/right hand flags.  It carries no body presence
flag and no confidences for face, body, or hand covers. -/
def part000PersonRecord (index : Nat) (p : Person) : List (String × String) :=
  [("Person ID", toString index),
   ("Person detected", toFixed2 (confOrZero p.Confidence) ++ "%"),
   ("Face detected", boolStr (bodyPartDetected p "FACE")),
   ("Face mask detected", boolStr (equipmentCoverDetected p "FACE" "FACE_COVER")),
   ("Face mask detection confidence", renderConfidence (firstEquipConfidence p "FACE")),
   ("Head detected", boolStr (bodyPartDetected p "HEAD")),
   ("Helmet detected", boolStr (equipmentCoverDetected p "HEAD" "HEAD_COVER")),
   ("Head detection confidence", renderConfidence (firstPartConfidence p "HEAD")),
   ("Helmet detection confidence", renderConfidence (firstEquipConfidence p "HEAD")),
   ("Protective vest detected", boolStr (equipmentCoverDetected p "BODY" "BODY_COVER")),
   ("Protective vest detection confidence", renderConfidence (firstEquipConfidence p "BODY")),
   ("Left hand detected", boolStr (bodyPartDetected p "LEFT_HAND")),
   ("Left hand cover detected", boolStr (equipmentCoverDetected p "LEFT_HAND" "HAND_COVER")),
   ("Right hand detected", boolStr (bodyPartDetected p "RIGHT_HAND")),
   ("Right hand cover detected", boolStr (equipmentCoverDetected p "RIGHT_HAND" "HAND_COVER"))]

/-- A sample detector response person: one face wearing a face cover. -/
def samplePerson : Person :=
  ⟨some 99, [⟨"FACE", some 98, [⟨"FACE_COVER", 97⟩]⟩]⟩

/-- A sample person wearing all three covers on the corresponding parts. -/
def coveredPerson : Person :=
  ⟨some 99,
   [⟨"FACE", some 90, [⟨"FACE_COVER", 80⟩]⟩,
    ⟨"HEAD", some 91, [⟨"HEAD_COVER", 70⟩]⟩,
    ⟨"HAND", some 92, [⟨"HAND_COVER", 60⟩]⟩]⟩

/-- A sample person with no overall confidence whose face cover was
detected with confidence exactly 0. -/
def zeroConfidencePerson : Person :=
  ⟨none, [⟨"FACE", some 90, [⟨"FACE_COVER", 0⟩]⟩]⟩

/-- The JS guard `fileSize > 5` on the MB value is the same as comparing the
byte length with 5 * 1024 * 1024. -/
theorem fileSizeMB_gt_iff (buf : Buffer) :
    5 < fileSizeMB buf ↔ 5 * 1024 * 1024 < buf.length := by
  unfold fileSizeMB
  rw [div_div, lt_div_iff₀ (by norm_num)]
  constructor
  · intro h
    exact_mod_cast h
  · intro h
    exact_mod_cast h

/-- Whenever the loop exits, the buffer it hands back is at most 5 MB. -/
theorem compressLoop_le (encodeSecond : Buffer → Buffer) :
    ∀ fuel buf out k, compressLoop encodeSecond fuel buf = some (out, k) →
      fileSizeMB out ≤ 5 := by
  intro fuel
  induction fuel with
  | zero =>
    intro buf out k h
    by_cases hgt : 5 < fileSizeMB buf
    · simp [compressLoop, hgt] at h
    · simp [compressLoop, hgt] at h
      rw [← h.1]
      exact le_of_not_lt hgt
  | succ n ih =>
    intro buf out k h
    by_cases hgt : 5 < fileSizeMB buf
    · simp only [compressLoop, if_pos hgt, Option.map_eq_some'] at h
      obtain ⟨⟨out2, k2⟩, hrec, hpair⟩ := h
      have h1 : out2 = out := congrArg Prod.fst hpair
      subst h1
      exact ih (encodeSecond buf) out2 k2 hrec
    · simp [compressLoop, hgt] at h
      rw [← h.1]
      exact le_of_not_lt hgt

/-- Claim C2 — for every input image, whenever `resizeAndCompressImage`
returns a buffer, that buffer is at most 5 MB (its byte length is at most
5 * 1024 * 1024): the re-encoding loop only exits once `fileSize > 5` is
false. -/
theorem resizeAndCompressImage_le_5MB (encodeFirst encodeSecond : Buffer → Buffer)
    (fuel : Nat) (image : Buffer) (out : Buffer) (k : Nat)
    (h : resizeAndCompressImage encodeFirst encodeSecond fuel image = some (out, k)) :
    out.length ≤ 5 * 1024 * 1024 := by
  have hq := compressLoop_le encodeSecond fuel (encodeFirst image) out k h
  by_contra hlt
  exact absurd ((fileSizeMB_gt_iff out).mpr (by omega)) (not_lt.mpr hq)

/-- Witness for C2: on a concrete small image the operation returns, and the
returned buffer is within the 5 MB bound. -/
theorem resizeAndCompressImage_le_5MB_witness :
    resizeAndCompressImage (fun b => b) (fun _ => []) 0 [7] = some ([7], 0) ∧
      ([7] : Buffer).length ≤ 5 * 1024 * 1024 :=
  ⟨by norm_num [resizeAndCompressImage, compressLoop, fileSizeMB],
    resizeAndCompressImage_le_5MB (fun b => b) (fun _ => []) 0 [7] [7] 0
      (by norm_num [resizeAndCompressImage, compressLoop, fileSizeMB])⟩

/-- Claim C8 — if the first encoding pass (width 1280, quality 80) already
yields a buffer of at most 5 MB, no second-pass re-encoding happens and the
first-pass buffer is returned unchanged, whatever the fuel. -/
theorem resizeAndCompressImage_first_pass (encodeFirst encodeSecond : Buffer → Buffer)
    (fuel : Nat) (image : Buffer)
    (h : fileSizeMB (encodeFirst image) ≤ 5) :
    resizeAndCompressImage encodeFirst encodeSecond fuel image =
      some (encodeFirst image, 0) := by
  unfold resizeAndCompressImage
  cases fuel with
  | zero => simp [compressLoop, not_lt.mpr h]
  | succ n => simp [compressLoop, not_lt.mpr h]

/-- Witness for C8: a concrete image whose first pass is small enough, with
zero second passes performed. -/
theorem resizeAndCompressImage_first_pass_witness :
    fileSizeMB ((fun b => b) ([2, 3] : Buffer)) ≤ 5 ∧
      resizeAndCompressImage (fun b => b) (fun _ => []) 9 [2, 3] = some ([2, 3], 0) :=
  ⟨by norm_num [fileSizeMB],
    resizeAndCompressImage_first_pass (fun b => b) (fun _ => []) 9 [2, 3]
      (by norm_num [fileSizeMB])⟩

theorem stuckEncoder_big (b : Buffer) : 5 < fileSizeMB (stuckEncoder b) := by
  rw [fileSizeMB_gt_iff]
  show 5 * 1024 * 1024 < (List.replicate (5 * 1024 * 1024 + 1) 0).length
  rw [List.length_replicate]
  omega

theorem compressLoop_stuck (fuel : Nat) :
    ∀ buf, 5 < fileSizeMB buf → compressLoop stuckEncoder fuel buf = none := by
  induction fuel with
  | zero =>
    intro buf hbig
    simp [compressLoop, hbig]
  | succ n ih =>
    intro buf hbig
    simp only [compressLoop]
    rw [if_pos hbig, ih (stuckEncoder buf) (stuckEncoder_big buf)]
    rfl

/-- Counterexample to claim C1 as stated: with the stuck codec the
re-encoding repetition never produces an output under the ceiling — for no
amount of fuel does `resizeAndCompressImage` exit the loop.  The repository
code places no bound on the loop and the spec's contract for the image
transcoder (§6) does not promise shrinking output, so termination is not
guaranteed for every input image. -/
theorem resizeAndCompress_no_termination :
    ¬ ∃ fuel p, resizeAndCompressImage stuckEncoder stuckEncoder fuel [] = some p := by
  rintro ⟨fuel, p, h⟩
  rw [resizeAndCompressImage, compressLoop_stuck fuel (stuckEncoder []) (stuckEncoder_big [])] at h
  exact Option.noConfusion h

/-- Claim C1 (amended) — the re-encoding repetition terminates with an
output under the 5 MB ceiling provided each second-pass re-encode of an
over-ceiling buffer strictly shrinks it: then some finite fuel makes the
loop exit, and the exit buffer is at most 5 MB. -/
theorem resizeAndCompress_terminates (encodeFirst encodeSecond : Buffer → Buffer)
    (hshrink : ∀ b : Buffer, 5 < fileSizeMB b → (encodeSecond b).length < b.length)
    (image : Buffer) :
    ∃ fuel p, resizeAndCompressImage encodeFirst encodeSecond fuel image = some p ∧
      fileSizeMB p.1 ≤ 5 := by
  suffices h : ∀ n (buf : Buffer), buf.length ≤ n →
      ∃ fuel p, compressLoop encodeSecond fuel buf = some p by
    obtain ⟨fuel, ⟨out, k⟩, hloop⟩ := h (encodeFirst image).length (encodeFirst image) le_rfl
    exact ⟨fuel, (out, k), hloop, compressLoop_le encodeSecond fuel _ out k hloop⟩
  intro n
  induction n with
  | zero =>
    intro buf hlen
    have hsmall : ¬ 5 < fileSizeMB buf := by
      rw [fileSizeMB_gt_iff]
      omega
    exact ⟨0, (buf, 0), by simp [compressLoop, hsmall]⟩
  | succ n ih =>
    intro buf hlen
    by_cases hgt : 5 < fileSizeMB buf
    · have hlt := hshrink buf hgt
      obtain ⟨fuel, ⟨out, k⟩, hp⟩ := ih (encodeSecond buf) (by omega)
      exact ⟨fuel + 1, (out, k + 1), by simp [compressLoop, hgt, hp]⟩
    · exact ⟨0, (buf, 0), by simp [compressLoop, hgt]⟩

/-- When every resize succeeds, the loop always returns `Except.ok` and its
result keeps exactly the frames whose detector call succeeded, in order. -/
theorem analyzeLoop_ok (rz : String → Buffer) (analyze : Buffer → Except String ρ)
    (resize : String → Except String Buffer)
    (hres : ∀ f, resize f = Except.ok (rz f)) :
    ∀ files : List String,
      analyzeLoop resize analyze files =
        Except.ok (files.filterMap (fun f =>
          match analyze (rz f) with
          | Except.ok r => some (f, r)
          | Except.error _ => none)) := by
  intro files
  induction files with
  | nil => rfl
  | cons f fs ih =>
    simp only [analyzeLoop, hres f, List.filterMap_cons]
    cases hana : analyze (rz f) with
    | ok r => simp [ih, Except.map]
    | error e => simp [ih, Except.map]

/-- Claim C3 — if the resize step succeeds on every frame, the request as a
whole succeeds (`Except.ok`) no matter which detector calls fail: each frame
whose detector call failed is omitted from the aggregate, and every other
frame, including all frames after a failing one, contributes its result in
order. -/
theorem analyzePPEInFrames_partial_failure (rz : String → Buffer)
    (analyze : Buffer → Except String ρ)
    (resize : String → Except String Buffer)
    (hres : ∀ f, resize f = Except.ok (rz f)) (folder : List String) :
    analyzePPEInFrames resize analyze folder =
      Except.ok ((folder.filter (fun f => List.isSuffixOf (String.data ".png") f.data)).filterMap
        (fun f =>
          match analyze (rz f) with
          | Except.ok r => some (f, r)
          | Except.error _ => none)) := by
  unfold analyzePPEInFrames
  exact analyzeLoop_ok rz analyze resize hres _

/-- Witness for C3: two frames, the detector fails on the first and succeeds
on the second; the request still succeeds and returns exactly the second
frame's result. -/
theorem analyzePPEInFrames_partial_failure_witness :
    (∀ f : String,
        (fun g : String => (Except.ok (List.replicate g.length 0) : Except String Buffer)) f =
        Except.ok (List.replicate f.length 0)) ∧
      analyzePPEInFrames (fun g => Except.ok (List.replicate g.length 0))
        (fun b => if b.length = 5 then Except.error "detector down" else Except.ok b.length)
        ["a.png", "frame-001.png"] =
        Except.ok [("frame-001.png", 13)] :=
  ⟨fun _ => rfl, by
    have h := analyzePPEInFrames_partial_failure
      (fun g : String => List.replicate g.length 0)
      (fun b => if b.length = 5 then Except.error "detector down" else Except.ok b.length)
      (fun g => Except.ok (List.replicate g.length 0)) (fun _ => rfl)
      ["a.png", "frame-001.png"]
    rw [h]
    rfl⟩

theorem frameName_png (i : Nat) :
    List.isSuffixOf (String.data ".png") (frameName i).data = true := by
  rw [List.isSuffixOf_iff_suffix]
  unfold frameName
  rw [String.data_append]
  exact List.suffix_append _ _

theorem extractFrames_filter (k : Nat) :
    (extractFrames k).filter (fun f => List.isSuffixOf (String.data ".png") f.data) =
      extractFrames k := by
  rw [List.filter_eq_self]
  intro f hf
  rw [extractFrames, List.mem_map] at hf
  obtain ⟨i, _, rfl⟩ := hf
  exact frameName_png (i + 1)

/-- The files of the aggregate are, in order, a subsequence of the files
iterated over. -/
theorem analyzeResult_fst_sublist (ana : Buffer → Except String ρ) (rz : String → Buffer) :
    ∀ l : List String,
      ((l.filterMap (fun f =>
        match ana (rz f) with
        | Except.ok r => some (f, r)
        | Except.error _ => none)).map Prod.fst).Sublist l := by
  intro l
  induction l with
  | nil => simp
  | cons f fs ih =>
    rw [List.filterMap_cons]
    cases ana (rz f) with
    | ok r =>
      rw [List.map_cons]
      exact ih.cons₂ f
    | error e => exact ih.cons f

/-- Claim C5 — for a valid video of duration `d` seconds the transcoder
writes `k ≤ ⌈d⌉` frames; whenever the resize step succeeds on each of them,
the aggregate result holds at most `⌈d⌉` frame analyses and the frame index
tags (the numbers in the `frame-%03d.png` file names) are strictly
increasing in result order. -/
theorem analyzePPEInFrames_count_and_order (d : ℚ) (k : Nat) (hk : (k : ℤ) ≤ ⌈d⌉)
    (rz : String → Buffer) (analyze : Buffer → Except String ρ)
    (resize : String → Except String Buffer)
    (hres : ∀ f, resize f = Except.ok (rz f)) :
    ∃ res, analyzePPEInFrames resize analyze (extractFrames k) = Except.ok res ∧
      (res.length : ℤ) ≤ ⌈d⌉ ∧
      ∃ idxs : List Nat, idxs.Chain' (· < ·) ∧ res.map Prod.fst = idxs.map frameName := by
  refine ⟨(extractFrames k).filterMap (fun f =>
      match analyze (rz f) with
      | Except.ok r => some (f, r)
      | Except.error _ => none), ?_, ?_, ?_⟩
  · unfold analyzePPEInFrames
    rw [extractFrames_filter, analyzeLoop_ok rz analyze resize hres]
  · have hle := List.length_filterMap_le (fun f =>
      match analyze (rz f) with
      | Except.ok r => some (f, r)
      | Except.error _ => none) (extractFrames k)
    have hlen : (extractFrames k).length = k := by
      rw [extractFrames, List.length_map, List.length_range]
    omega
  · have hsub := analyzeResult_fst_sublist analyze rz (extractFrames k)
    rw [extractFrames] at hsub
    obtain ⟨l2, hl2, heq⟩ := List.sublist_map_iff.mp hsub
    refine ⟨l2.map (fun i => i + 1), ?_, ?_⟩
    · apply List.Pairwise.chain'
      rw [List.pairwise_map]
      exact ((List.pairwise_lt_range k).sublist hl2).imp (by omega)
    · rw [extractFrames, heq, List.map_map]
      rfl

/-- Witness for C5: a 2-second video yielding two frames, the detector
succeeding on both. -/
theorem analyzePPEInFrames_count_and_order_witness :
    (((2 : Nat) : ℤ) ≤ ⌈(2 : ℚ)⌉) ∧
      (∀ f : String,
        (fun _ : String => (Except.ok [] : Except String Buffer)) f =
          Except.ok ((fun _ : String => ([] : Buffer)) f)) ∧
      ∃ res, analyzePPEInFrames (fun _ => Except.ok [])
          (fun _ => (Except.ok 0 : Except String Nat)) (extractFrames 2) = Except.ok res ∧
        (res.length : ℤ) ≤ ⌈(2 : ℚ)⌉ ∧
        ∃ idxs : List Nat, idxs.Chain' (· < ·) ∧ res.map Prod.fst = idxs.map frameName :=
  ⟨by norm_num, fun _ => rfl,
    analyzePPEInFrames_count_and_order 2 2 (by norm_num) (fun _ => [])
      (fun _ => Except.ok 0) (fun _ => Except.ok []) (fun _ => rfl)⟩

/-- Counterexample to claim C4 as stated: in the src/backend/index.js
variant an upload request with no file attached does not get a
`{success:false}` response — the handler dereferences `req.file.filename`
and throws, so no JSON response is produced at all. -/
theorem uploadHandlerIndex_no_file_throws :
    uploadHandlerIndex none (fun _ => true) (fun n => Except.ok n)
        (fun _ => (Except.ok 0 : Except String Nat)) =
      IndexOutcome.thrown "TypeError: cannot read filename of undefined" ∧
    (uploadHandlerIndex none (fun _ => true) (fun n => Except.ok n)
        (fun _ => (Except.ok 0 : Except String Nat))).isFailureResponse = false :=
  ⟨rfl, rfl⟩

/-- Claim C4 (amended) — in the src/backend/server.js variant, every upload
request with no file attached is answered with `success = false` and an
error message, and no pipeline stage runs: no file write, no frame
extraction, no detector call.  (The src/backend/index.js variant instead
throws before responding.) -/
theorem uploadHandler_no_file (tokenValid : Bool)
    (extractF : Buffer → Except String (List String))
    (analyzeF : List String → Except String ρ) :
    (uploadHandler tokenValid none extractF analyzeF).success = false ∧
      (uploadHandler tokenValid none extractF analyzeF).error.isSome = true ∧
      (uploadHandler tokenValid none extractF analyzeF).stages = [] := by
  cases tokenValid with
  | false => exact ⟨rfl, rfl, rfl⟩
  | true => exact ⟨rfl, rfl, rfl⟩

/-- Claim C6 — when the username exists, a password matching the stored
hash yields a success response carrying the signed token, and a wrong
password yields no token and creates no session artifact (no `Logs` row);
the handler is stateless across attempts, so any number of wrong-password
attempts never issues a token or creates a session. -/
theorem login_token_iff_match (dbQuery : String → Except String (List User))
    (bcryptCompare : String → String → Bool) (jwtSign : Nat → String)
    (username : String) (rows : List User) (user : User)
    (hdb : dbQuery username = Except.ok rows) (hrow : rows.head? = some user) :
    (∀ password, bcryptCompare password user.password_hash = true →
        login dbQuery bcryptCompare jwtSign username password =
          ⟨200, true, some (jwtSign user.user_id), none, true⟩) ∧
      (∀ password, bcryptCompare password user.password_hash = false →
        (login dbQuery bcryptCompare jwtSign username password).token = none ∧
          (login dbQuery bcryptCompare jwtSign username password).logInserted = false) := by
  constructor
  · intro password hmatch
    unfold login
    rw [hdb]
    simp only [hrow]
    rw [if_pos hmatch]
  · intro password hmiss
    unfold login
    rw [hdb]
    simp only [hrow]
    rw [if_neg (by simp [hmiss])]
    exact ⟨rfl, rfl⟩

/-- Witness for C6: a one-user database where only the password "letmein"
matches; the matching attempt gets the token, the wrong attempt gets none. -/
theorem login_token_iff_match_witness :
    ((fun _ : String => (Except.ok [⟨1, "alice", "a@b.c", "hash1"⟩] :
        Except String (List User))) "alice" = Except.ok [⟨1, "alice", "a@b.c", "hash1"⟩]) ∧
      (([⟨1, "alice", "a@b.c", "hash1"⟩] : List User).head? =
        some ⟨1, "alice", "a@b.c", "hash1"⟩) ∧
      ((fun p h : String => p == "letmein" && h == "hash1") "letmein" "hash1" = true →
        login (fun _ => Except.ok [⟨1, "alice", "a@b.c", "hash1"⟩])
          (fun p h => p == "letmein" && h == "hash1") (fun n => toString n)
          "alice" "letmein" = ⟨200, true, some (toString 1), none, true⟩) ∧
      ((fun p h : String => p == "letmein" && h == "hash1") "wrong" "hash1" = false →
        (login (fun _ => Except.ok [⟨1, "alice", "a@b.c", "hash1"⟩])
          (fun p h => p == "letmein" && h == "hash1") (fun n => toString n)
          "alice" "wrong").token = none ∧
        (login (fun _ => Except.ok [⟨1, "alice", "a@b.c", "hash1"⟩])
          (fun p h => p == "letmein" && h == "hash1") (fun n => toString n)
          "alice" "wrong").logInserted = false) :=
  ⟨rfl, rfl,
    (login_token_iff_match (fun _ => Except.ok [⟨1, "alice", "a@b.c", "hash1"⟩])
      (fun p h => p == "letmein" && h == "hash1") (fun n => toString n)
      "alice" [⟨1, "alice", "a@b.c", "hash1"⟩] ⟨1, "alice", "a@b.c", "hash1"⟩
      rfl rfl).1 "letmein",
    (login_token_iff_match (fun _ => Except.ok [⟨1, "alice", "a@b.c", "hash1"⟩])
      (fun p h => p == "letmein" && h == "hash1") (fun n => toString n)
      "alice" [⟨1, "alice", "a@b.c", "hash1"⟩] ⟨1, "alice", "a@b.c", "hash1"⟩
      rfl rfl).2 "wrong"⟩

/-- Witness for C1 (amended): a codec whose second pass always returns the
empty buffer strictly shrinks every over-ceiling buffer, so the loop
terminates. -/
theorem resizeAndCompress_terminates_witness :
    (∀ b : Buffer, 5 < fileSizeMB b → ((fun _ : Buffer => ([] : Buffer)) b).length < b.length) ∧
      ∃ fuel p, resizeAndCompressImage (fun b => b) (fun _ => []) fuel [1, 2] = some p ∧
        fileSizeMB p.1 ≤ 5 := by
  have hsh : ∀ b : Buffer, 5 < fileSizeMB b →
      ((fun _ : Buffer => ([] : Buffer)) b).length < b.length := by
    intro b hb
    have h2 := (fileSizeMB_gt_iff b).mp hb
    simp only [List.length_nil]
    omega
  exact ⟨hsh, resizeAndCompress_terminates (fun b => b) (fun _ => []) hsh [1, 2]⟩

/-- Counterexample to claim C7 as stated: the per-person record of the
primary variant (src/backend/server.js) holds, for a concrete person,
exactly nine keys — boolean flags plus one overall person confidence — so
it has no per-category confidence percentage (for example no face-covering
confidence key) and not even a body presence flag. -/
theorem serverPersonRecord_missing_fields :
    (serverPersonRecord 0 samplePerson).map Prod.fst =
      ["Person ID", "Person detected", "Face detected", "Face mask detected",
       "Head detected", "Helmet detected", "Protective vest detected",
       "Hands detected", "Gloves detected"] ∧
      ¬ ("Face mask detection confidence" ∈ (serverPersonRecord 0 samplePerson).map Prod.fst) ∧
      ¬ ("Body detected" ∈ (serverPersonRecord 0 samplePerson).map Prod.fst) := by
  refine ⟨rfl, ?_, ?_⟩ <;> decide

/-- Claim C7 (amended) — for every person, the primary variant's record
holds exactly the nine keys (person id, overall confidence, and presence
flags for face, face-cover, head, head-cover, body-cover, hands and
hand-cover), and the richer variant's record holds exactly fifteen keys,
adding confidences only for face-cover, head, head-cover and body-cover and
splitting hands into left/right; neither holds a body presence flag nor a
confidence for every category. -/
theorem personRecord_keys (index : Nat) (p : Person) :
    (serverPersonRecord index p).map Prod.fst =
      ["Person ID", "Person detected", "Face detected", "Face mask detected",
       "Head detected", "Helmet detected", "Protective vest detected",
       "Hands detected", "Gloves detected"] ∧
      (part000PersonRecord index p).map Prod.fst =
        ["Person ID", "Person detected", "Face detected", "Face mask detected",
         "Face mask detection confidence", "Head detected", "Helmet detected",
         "Head detection confidence", "Helmet detection confidence",
         "Protective vest detected", "Protective vest detection confidence",
         "Left hand detected", "Left hand cover detected",
         "Right hand detected", "Right hand cover detected"] :=
  ⟨rfl, rfl⟩

/-- A detected equipment cover on a body part implies that body part was
among the person's parts. -/
theorem equipmentCover_implies_bodyPart (p : Person) (name ctype : String)
    (h : equipmentCoverDetected p name ctype = true) :
    bodyPartDetected p name = true := by
  simp only [equipmentCoverDetected, List.any_eq_true, List.mem_filter] at h
  obtain ⟨bp, ⟨hmem, hname⟩, _⟩ := h
  simp only [bodyPartDetected, List.any_eq_true]
  exact ⟨bp, hmem, hname⟩

/-- Claim C9 — in every record produced by the normalization of
src/backend/server.js, a cover flag being `'true'` implies the matching
body-part flag is `'true'`: the cover flags are computed over the filtered
body parts of the same name, so a detected cover exhibits a detected part. -/
theorem serverPersonRecord_cover_implies_part (index : Nat) (p : Person) :
    (List.lookup "Face mask detected" (serverPersonRecord index p) = some "true" →
      List.lookup "Face detected" (serverPersonRecord index p) = some "true") ∧
    (List.lookup "Helmet detected" (serverPersonRecord index p) = some "true" →
      List.lookup "Head detected" (serverPersonRecord index p) = some "true") ∧
    (List.lookup "Gloves detected" (serverPersonRecord index p) = some "true" →
      List.lookup "Hands detected" (serverPersonRecord index p) = some "true") := by
  have hb : ∀ b : Bool, boolStr b = "true" → b = true := by
    intro b
    cases b with
    | true => intro _; rfl
    | false => intro h; exact absurd h (by decide)
  refine ⟨?_, ?_, ?_⟩ <;> intro h
  · have h1 := Option.some.inj
      (show some (boolStr (equipmentCoverDetected p "FACE" "FACE_COVER")) = some "true" from h)
    have h2 := equipmentCover_implies_bodyPart p "FACE" "FACE_COVER" (hb _ h1)
    show some (boolStr (bodyPartDetected p "FACE")) = some "true"
    rw [h2]
    rfl
  · have h1 := Option.some.inj
      (show some (boolStr (equipmentCoverDetected p "HEAD" "HEAD_COVER")) = some "true" from h)
    have h2 := equipmentCover_implies_bodyPart p "HEAD" "HEAD_COVER" (hb _ h1)
    show some (boolStr (bodyPartDetected p "HEAD")) = some "true"
    rw [h2]
    rfl
  · have h1 := Option.some.inj
      (show some (boolStr (equipmentCoverDetected p "HAND" "HAND_COVER")) = some "true" from h)
    have h2 := equipmentCover_implies_bodyPart p "HAND" "HAND_COVER" (hb _ h1)
    show some (boolStr (bodyPartDetected p "HAND")) = some "true"
    rw [h2]
    rfl

/-- Witness for C9: on a concrete person all three cover flags are `'true'`
and the implied part flags are `'true'`. -/
theorem serverPersonRecord_cover_implies_part_witness :
    (List.lookup "Face mask detected" (serverPersonRecord 0 coveredPerson) = some "true" ∧
      List.lookup "Face detected" (serverPersonRecord 0 coveredPerson) = some "true") ∧
    (List.lookup "Helmet detected" (serverPersonRecord 0 coveredPerson) = some "true" ∧
      List.lookup "Head detected" (serverPersonRecord 0 coveredPerson) = some "true") ∧
    (List.lookup "Gloves detected" (serverPersonRecord 0 coveredPerson) = some "true" ∧
      List.lookup "Hands detected" (serverPersonRecord 0 coveredPerson) = some "true") :=
  ⟨⟨rfl, (serverPersonRecord_cover_implies_part 0 coveredPerson).1 rfl⟩,
   ⟨rfl, (serverPersonRecord_cover_implies_part 0 coveredPerson).2.1 rfl⟩,
   ⟨rfl, (serverPersonRecord_cover_implies_part 0 coveredPerson).2.2 rfl⟩⟩

theorem toFixed2_zero : toFixed2 0 = "0.00" := by
  unfold toFixed2
  norm_num
  rfl

/-- Claim C10 — in the confidence-reporting variants, a per-category
confidence of exactly 0 renders as `'N/A'`, the same string a missing
confidence renders as (both are falsy to the JS conditional), and a person
whose `Confidence` field is absent is reported as `'Person detected':
'0.00%'` through the `|| 0` default. -/
theorem part000PersonRecord_falsy_confidence (index : Nat) (p : Person)
    (h0 : firstEquipConfidence p "FACE" = some 0)
    (hn : p.Confidence = none) :
    List.lookup "Face mask detection confidence" (part000PersonRecord index p) = some "N/A" ∧
      renderConfidence none = "N/A" ∧
      List.lookup "Person detected" (part000PersonRecord index p) = some "0.00%" := by
  refine ⟨?_, rfl, ?_⟩
  · show some (renderConfidence (firstEquipConfidence p "FACE")) = some "N/A"
    rw [h0]
    simp [renderConfidence]
  · show some (toFixed2 (confOrZero p.Confidence) ++ "%") = some "0.00%"
    rw [hn]
    show some (toFixed2 0 ++ "%") = some "0.00%"
    rw [toFixed2_zero]
    rfl

/-- Witness for C10: the concrete zero-confidence person renders `'N/A'`
for the face mask confidence and `'0.00%'` for the person confidence. -/
theorem part000PersonRecord_falsy_confidence_witness :
    (firstEquipConfidence zeroConfidencePerson "FACE" = some 0 ∧
      zeroConfidencePerson.Confidence = none) ∧
    (List.lookup "Face mask detection confidence"
        (part000PersonRecord 0 zeroConfidencePerson) = some "N/A" ∧
      renderConfidence none = "N/A" ∧
      List.lookup "Person detected" (part000PersonRecord 0 zeroConfidencePerson) =
        some "0.00%") :=
  ⟨⟨rfl, rfl⟩, part000PersonRecord_falsy_confidence 0 zeroConfidencePerson rfl rfl⟩
